import Mathlib

/- Verification of the non-GUI logic of src/GUI_KYPO.py (CYBERCOR
Topology Generator).  Python dictionaries are modelled as
insertion-ordered association lists over a YAML-style value type,
Python strings as String, the filesystem as an explicit list of
directory paths, the Python object heap (where reference aliasing
matters) as an explicit store, and the Tk dialog side effects of the
button handlers as an explicit Effect value. -/

/-- Value type for the YAML-shaped data the program manipulates:
Python str, bool, int, list and dict values as they occur in the
topology records built by src/GUI_KYPO.py. -/
inductive Val where
  | vStr : String → Val
  | vBool : Bool → Val
  | vInt : Int → Val
  | vList : List Val → Val
  | vDict : List (String × Val) → Val

/-- Insertion-ordered association list standing for a Python dict. -/
abbrev Dict := List (String × Val)

/-- Python d.get(k): the binding of key k, none when the key is absent. -/
def lookup : Dict → String → Option Val
  | [], _ => none
  | kv :: rest, k => if kv.1 = k then some kv.2 else lookup rest k

/-- Python membership test (k in d). -/
def hasKey (d : Dict) (k : String) : Bool :=
  (lookup d k).isSome

/-- Python assignment d[k] = v: replace the binding in place, keeping
its position; append when the key is absent. -/
def setKey : Dict → String → Val → Dict
  | [], k, v => [(k, v)]
  | kv :: rest, k, v => if kv.1 = k then (k, v) :: rest else kv :: setKey rest k v

/-- Python d.pop(k, None): remove the binding of key k. -/
def eraseKey : Dict → String → Dict
  | [], _ => []
  | kv :: rest, k => if kv.1 = k then eraseKey rest k else kv :: eraseKey rest k

/-- Python truthiness of a value. -/
def pyTruthy : Val → Bool
  | Val.vStr s => s != ""
  | Val.vBool b => b
  | Val.vInt n => n != 0
  | Val.vList l => !l.isEmpty
  | Val.vDict d => !d.isEmpty

/-- Python truthiness of an optional value; None is falsy. -/
def truthyOpt : Option Val → Bool
  | none => false
  | some v => pyTruthy v

/-- ASCII whitespace recognised by Python str.strip and int; the Tk
entry widgets of this program only produce ASCII input. -/
def isPySpace (c : Char) : Bool :=
  c == ' ' || c == '\t' || c == '\n' || c == '\r' || c == Char.ofNat 11 || c == Char.ofNat 12

/-- Python str.strip with no argument: drop leading and trailing
whitespace. -/
def pyStrip (s : String) : String :=
  String.mk ((s.data.dropWhile isPySpace).reverse.dropWhile isPySpace).reverse

/-- Tail of the body of a Python int literal: digits, with single
underscores allowed only between digits. -/
def digitsTail : List Char → Bool
  | [] => true
  | '_' :: c :: rest => c.isDigit && digitsTail rest
  | c :: rest => c.isDigit && digitsTail rest

/-- Body of a Python int literal: a nonempty digit sequence with
optional single underscores between digits. -/
def digitsOk : List Char → Bool
  | [] => false
  | c :: rest => c.isDigit && digitsTail rest

/-- Numeric value of a digit sequence, ignoring underscores. -/
def digitsVal (cs : List Char) : Nat :=
  (cs.filter (fun c => c != '_')).foldl (fun n c => 10 * n + (c.toNat - 48)) 0

/-- Python int(s) on the ASCII strings this program produces: optional
surrounding whitespace, an optional sign, then digits with underscore
separators; none models a ValueError. -/
def pyParseInt (s : String) : Option Int :=
  match ((s.data.dropWhile isPySpace).reverse.dropWhile isPySpace).reverse with
  | '+' :: rest => if digitsOk rest then some (digitsVal rest) else none
  | '-' :: rest => if digitsOk rest then some (-(digitsVal rest : Int)) else none
  | rest => if digitsOk rest then some (digitsVal rest) else none

/-- Loop body of generate_topology (src/GUI_KYPO.py lines 16 to 20):
copy the host dict and drop the hidden key when its value is not
truthy. -/
def filterHost (h : Dict) : Dict :=
  if truthyOpt (lookup h "hidden") then h else eraseKey h "hidden"

/-- HostGroup record as built by TopologyApp.add_groups (lines 733 to
736): always exactly a name and the list of selected host names. -/
structure HostGroup where
  name : String
  hosts : List String

/-- Re-keying applied to each group by generate_topology (line 30):
the hosts list is emitted under the key nodes. -/
def rekeyGroup (g : HostGroup) : Val :=
  Val.vDict [("name", Val.vStr g.name), ("nodes", Val.vList (g.hosts.map Val.vStr))]

/-- Topology dictionary built by generate_topology (lines 22 to 33)
before YAML serialisation; the groups entry keeps the conditional of
line 32 literally. -/
def generateTopologyDoc (name : String)
    (hosts routers networks netMappings routerMappings : List Dict)
    (groups : List HostGroup) : Dict :=
  [("name", Val.vStr name),
   ("hosts", Val.vList ((hosts.map filterHost).map Val.vDict)),
   ("routers", Val.vList (routers.map Val.vDict)),
   ("networks", Val.vList (networks.map Val.vDict)),
   ("net_mappings", Val.vList (netMappings.map Val.vDict)),
   ("router_mappings", Val.vList (routerMappings.map Val.vDict)),
   ("groups", if groups.isEmpty then Val.vList [] else Val.vList (groups.map rekeyGroup))]

/-- Indentation string for the YAML writer. -/
def spacesN (n : Nat) : String :=
  String.mk (List.replicate n ' ')

mutual
/-- Deterministic model of yaml.dump with sort_keys=False for one
value: block style, keys and list elements in insertion order. -/
def dumpVal : Val → Nat → String
  | Val.vStr s, _ => " " ++ s
  | Val.vBool b, _ => if b then " true" else " false"
  | Val.vInt n, _ => " " ++ toString n
  | Val.vList l, ind => dumpListV l ind
  | Val.vDict d, ind => dumpDictV d ind

/-- Block-style rendering of a YAML sequence. -/
def dumpListV : List Val → Nat → String
  | [], _ => " []"
  | v :: rest, ind =>
    "\n" ++ spacesN ind ++ "-" ++ dumpVal v (ind + 2) ++ dumpListV rest ind

/-- Block-style rendering of a YAML mapping. -/
def dumpDictV : List (String × Val) → Nat → String
  | [], _ => " \x7b\x7d"
  | kv :: rest, ind =>
    "\n" ++ spacesN ind ++ kv.1 ++ ":" ++ dumpVal kv.2 (ind + 2) ++ dumpDictV rest ind
end

/-- generate_topology (lines 10 to 34): build the topology dict and
dump it to a YAML string with keys in insertion order. -/
def generate_topology (name : String)
    (hosts routers networks netMappings routerMappings : List Dict)
    (groups : List HostGroup) : String :=
  dumpDictV (generateTopologyDoc name hosts routers networks netMappings routerMappings groups) 0

/-- Python comparison of a network record name against a target name.
Records built by add_network always carry a stripped string name
(line 653); a record without one would raise a KeyError in Python and
is treated as a non-match here. -/
def nameMatches (n : Dict) (target : String) : Bool :=
  match lookup n "name" with
  | some (Val.vStr s) => s == target
  | _ => false

/-- The generator expression of lines 681 and 709: the first network
record whose name equals the requested one, none when there is no
match. -/
def findNetwork (networks : List Dict) (target : String) : Option Dict :=
  networks.find? (fun n => nameMatches n target)

/-- Accumulator-passing core of the model of Python str.split on a
single dot. -/
def splitDotsAux : List Char → List Char → List String
  | [], acc => [String.mk acc.reverse]
  | c :: rest, acc =>
    if c = '.' then String.mk acc.reverse :: splitDotsAux rest []
    else splitDotsAux rest (c :: acc)

/-- Python s.split on a dot separator; the empty string yields a
singleton list holding the empty string. -/
def splitDots (s : String) : List String :=
  splitDotsAux s.data []

/-- Python join of string parts with a dot separator. -/
def joinDots : List String → String
  | [] => ""
  | [s] => s
  | s :: rest => s ++ "." ++ joinDots rest

/-- Mapping built by TopologyApp.add_network_mapping (lines 675 to
686): start from the placeholder IP and overwrite it with the
CIDR-derived address when the referenced network exists, carries a
cidr entry, and that cidr splits into at least three dot-separated
components.  A non-string cidr never occurs because add_network stores
a stripped string (line 654). -/
def mkNetMapping (networks : List Dict) (hostName networkName lastOctet : String) : Dict :=
  let mapping : Dict :=
    [("host", Val.vStr hostName),
     ("network", Val.vStr networkName),
     ("ip", Val.vStr ("?.?.?." ++ lastOctet))]
  match findNetwork networks networkName with
  | some n =>
    match lookup n "cidr" with
    | some (Val.vStr c) =>
      if 3 ≤ (splitDots c).length then
        setKey mapping "ip" (Val.vStr (joinDots ((splitDots c).take 3) ++ "." ++ lastOctet))
      else mapping
    | _ => mapping
  | none => mapping

/-- Mapping built by TopologyApp.add_router_mapping (lines 704 to
714): the same derivation with the router key and the fixed last
octet 1. -/
def mkRouterMapping (networks : List Dict) (routerName networkName : String) : Dict :=
  let mapping : Dict :=
    [("router", Val.vStr routerName),
     ("network", Val.vStr networkName),
     ("ip", Val.vStr "?.?.?.1")]
  match findNetwork networks networkName with
  | some n =>
    match lookup n "cidr" with
    | some (Val.vStr c) =>
      if 3 ≤ (splitDots c).length then
        setKey mapping "ip" (Val.vStr (joinDots ((splitDots c).take 3) ++ ".1"))
      else mapping
    | _ => mapping
  | none => mapping

/-- Observable Tk effect of one button handler invocation: nothing, a
blocking error dialog from messagebox.showerror, or an info dialog
from messagebox.showinfo. -/
inductive Effect where
  | noEffect : Effect
  | errorDialog : String → String → Effect
  | infoDialog : String → String → Effect

/-- TopologyApp.add_network_mapping (lines 665 to 693): the guard on
empty entity lists shows an error dialog; a missing required field
returns silently (line 673); otherwise the mapping is appended.
Returns the new net_mappings list and the dialog effect. -/
def add_network_mapping_run (hosts networks netMappings : List Dict)
    (hostRaw networkRaw octetRaw : String) : List Dict × Effect :=
  if hosts.isEmpty || networks.isEmpty then
    (netMappings, Effect.errorDialog "Error" "Add hosts/networks first!")
  else
    if pyStrip hostRaw = "" ∨ pyStrip networkRaw = "" ∨ pyStrip octetRaw = "" then
      (netMappings, Effect.noEffect)
    else
      (netMappings ++ [mkNetMapping networks (pyStrip hostRaw) (pyStrip networkRaw) (pyStrip octetRaw)],
       Effect.noEffect)

/-- TopologyApp.add_router_mapping (lines 695 to 720): the analogous
handler for router mappings. -/
def add_router_mapping_run (routers networks routerMappings : List Dict)
    (routerRaw networkRaw : String) : List Dict × Effect :=
  if routers.isEmpty || networks.isEmpty then
    (routerMappings, Effect.errorDialog "Error" "Add routers/networks first!")
  else
    if pyStrip routerRaw = "" ∨ pyStrip networkRaw = "" then
      (routerMappings, Effect.noEffect)
    else
      (routerMappings ++ [mkRouterMapping networks (pyStrip routerRaw) (pyStrip networkRaw)],
       Effect.noEffect)

/-- Loop body of save_containers (lines 111 to 117): coerce the port
of the copied mapping to an integer when int succeeds and keep the
original value on a ValueError.  A mapping without a port would raise
an uncaught KeyError in Python; mappings built by
add_container_mapping always carry a string port (line 783). -/
def coercePort (m : Dict) : Dict :=
  match lookup m "port" with
  | some (Val.vStr s) =>
    match pyParseInt s with
    | some k => setKey m "port" (Val.vInt k)
    | none => m
  | some (Val.vInt k) => setKey m "port" (Val.vInt k)
  | _ => m

/-- Document written by save_containers (lines 119 to 122). -/
def save_containers_data (containers containerMappings : List Dict) : Dict :=
  [("containers", Val.vList (containers.map Val.vDict)),
   ("container_mappings", Val.vList ((containerMappings.map coercePort).map Val.vDict))]

/-- Container record built by TopologyApp.add_container (lines 743 to
759): none models the early return with an error dialog on an empty
name; the dockerfile directory side effects are not part of the
record. -/
def add_container (nameRaw imageRaw dockerRaw : String) : Option Dict :=
  if pyStrip nameRaw = "" then none
  else
    if pyStrip dockerRaw = "" then
      some [("name", Val.vStr (pyStrip nameRaw)), ("image", Val.vStr (pyStrip imageRaw))]
    else
      some [("name", Val.vStr (pyStrip nameRaw)), ("dockerfile", Val.vStr (pyStrip dockerRaw))]

/-- Filesystem path as a list of name components. -/
abbrev DirPath := List String

/-- Creation of a single directory with exist_ok semantics: an
existing directory is left untouched, a new one is recorded. -/
def insertDir (fs : List DirPath) (p : DirPath) : List DirPath :=
  if p ∈ fs then fs else fs ++ [p]

/-- Nonempty ancestor chain of a path, shortest first. -/
def ancestorsOf (p : DirPath) : List DirPath :=
  (List.range p.length).map (fun i => p.take (i + 1))

/-- os.makedirs with exist_ok=True: create every missing ancestor of
the path and the path itself, never failing on existing directories. -/
def makedirs (fs : List DirPath) (p : DirPath) : List DirPath :=
  (ancestorsOf p).foldl insertDir fs

/-- Name of a host record; add_host always stores a stripped string
name (line 609), and a record without one would raise a KeyError in
Python. -/
def hostName (h : Dict) : String :=
  match lookup h "name" with
  | some (Val.vStr s) => s
  | _ => ""

/-- create_directories (lines 37 to 50) as a transformer on the set of
existing directories: create provisioning/roles under the base
directory, then per host a role directory with files, tasks and vars
subdirectories. -/
def create_directories (fs : List DirPath) (baseDir : DirPath) (hosts : List Dict) : List DirPath :=
  let fs1 := makedirs fs (baseDir ++ ["provisioning", "roles"])
  hosts.foldl (fun acc h =>
    let acc1 := makedirs acc (baseDir ++ ["provisioning", "roles"] ++ [hostName h])
    ["files", "tasks", "vars"].foldl
      (fun a sub => makedirs a (baseDir ++ ["provisioning", "roles"] ++ [hostName h] ++ [sub]))
      acc1) fs1

/-- Every directory path touched by the per-host loop of
create_directories, in creation order. -/
def pathsOfHost (rolesDir : DirPath) (h : Dict) : List DirPath :=
  ancestorsOf (rolesDir ++ [hostName h])
    ++ (["files", "tasks", "vars"].flatMap (fun sub => ancestorsOf (rolesDir ++ [hostName h] ++ [sub])))

/-- Every directory path touched by create_directories, in creation
order. -/
def pathsOf (baseDir : DirPath) (hosts : List Dict) : List DirPath :=
  ancestorsOf (baseDir ++ ["provisioning", "roles"])
    ++ hosts.flatMap (pathsOfHost (baseDir ++ ["provisioning", "roles"]))

/-- Python object store: host and mapping dicts addressed by
reference. -/
abbrev Store := List Dict

/-- Allocation of a fresh cell holding d followed by an in-place
update of that same fresh cell to d2; the cells of the original store
are never written. -/
def allocWrite (st : Store) (d d2 : Dict) : Store :=
  (st ++ [d]).set st.length d2

/-- One iteration of the filtered_hosts loop of generate_topology
(lines 16 to 20) on the heap: read the dict at address a, allocate the
copy dict(h) as a fresh cell, and pop the hidden key on the copy
only. -/
def copyFilterStep (st : Store) (a : Nat) : Store × Dict :=
  (allocWrite st (st.getD a []) (filterHost (st.getD a [])), filterHost (st.getD a []))

/-- The filtered_hosts loop of generate_topology on the heap, over the
addresses of the host dicts. -/
def filterHostsHeap : Store → List Nat → Store × List Dict
  | st, [] => (st, [])
  | st, a :: rest =>
    let sc := copyFilterStep st a
    let sr := filterHostsHeap sc.1 rest
    (sr.1, sc.2 :: sr.2)

/-- One iteration of the numeric_mappings loop of save_containers
(lines 111 to 117) on the heap: read the dict at address a, allocate
the copy dict(m) as a fresh cell, and coerce the port on the copy
only. -/
def coercePortStep (st : Store) (a : Nat) : Store × Dict :=
  (allocWrite st (st.getD a []) (coercePort (st.getD a [])), coercePort (st.getD a []))

/-- The numeric_mappings loop of save_containers on the heap, over the
addresses of the mapping dicts. -/
def numericMappingsHeap : Store → List Nat → Store × List Dict
  | st, [] => (st, [])
  | st, a :: rest =>
    let sc := coercePortStep st a
    let sr := numericMappingsHeap sc.1 rest
    (sr.1, sc.2 :: sr.2)

/-- Lookup after setting a key finds the new value, whether or not the
key was present. -/
theorem lookup_setKey_self (d : Dict) (k : String) (v : Val) :
    lookup (setKey d k v) k = some v := by
  induction d with
  | nil => simp [setKey, lookup]
  | cons kv rest ih =>
    by_cases hk : kv.1 = k
    · simp [setKey, hk, lookup]
    · simp [setKey, hk, lookup, ih]

/-- Setting one key leaves the lookup of every other key unchanged. -/
theorem lookup_setKey_ne (d : Dict) (k k' : String) (v : Val) (h : k' ≠ k) :
    lookup (setKey d k v) k' = lookup d k' := by
  induction d with
  | nil => simp [setKey, lookup, Ne.symm h]
  | cons kv rest ih =>
    by_cases hk : kv.1 = k
    · subst hk
      simp [setKey, lookup, Ne.symm h]
    · simp [setKey, hk, lookup, ih]

/-- Lookup of an erased key yields none. -/
theorem lookup_eraseKey_self (d : Dict) (k : String) :
    lookup (eraseKey d k) k = none := by
  induction d with
  | nil => rfl
  | cons kv rest ih =>
    by_cases hk : kv.1 = k
    · simp [eraseKey, hk, ih]
    · simp [eraseKey, hk, lookup, ih]

/-- Erasing one key leaves the lookup of every other key unchanged. -/
theorem lookup_eraseKey_ne (d : Dict) (k k' : String) (h : k' ≠ k) :
    lookup (eraseKey d k) k' = lookup d k' := by
  induction d with
  | nil => rfl
  | cons kv rest ih =>
    by_cases hk : kv.1 = k
    · subst hk
      simp [eraseKey, lookup, ih, Ne.symm h]
    · simp [eraseKey, hk, lookup, ih]

/-- Directories already present survive one insertDir step. -/
theorem mem_insertDir (fs : List DirPath) (p q : DirPath) (h : q ∈ fs) : q ∈ insertDir fs p := by
  unfold insertDir
  split
  · exact h
  · exact List.mem_append_left _ h

/-- insertDir makes its argument present. -/
theorem self_mem_insertDir (fs : List DirPath) (p : DirPath) : p ∈ insertDir fs p := by
  unfold insertDir
  split
  · assumption
  · exact List.mem_append_right _ (List.mem_singleton.mpr rfl)

/-- Directories already present survive a whole fold of insertDir. -/
theorem mem_foldl_insertDir (l : List DirPath) (fs : List DirPath) (q : DirPath) (h : q ∈ fs) :
    q ∈ l.foldl insertDir fs := by
  induction l generalizing fs with
  | nil => exact h
  | cons p rest ih => exact ih _ (mem_insertDir _ _ _ h)

/-- Every directory inserted by a fold of insertDir is present
afterwards. -/
theorem mem_foldl_insertDir_of_mem (l : List DirPath) (fs : List DirPath) (p : DirPath)
    (h : p ∈ l) : p ∈ l.foldl insertDir fs := by
  induction l generalizing fs with
  | nil => cases h
  | cons a rest ih =>
    rcases List.mem_cons.mp h with h1 | h1
    · subst h1
      exact mem_foldl_insertDir rest (insertDir fs p) p (self_mem_insertDir fs p)
    · exact ih (insertDir fs a) h1

/-- A fold of insertDir over directories that all already exist is the
identity. -/
theorem foldl_insertDir_noop : ∀ (l fs : List DirPath), (∀ p ∈ l, p ∈ fs) → l.foldl insertDir fs = fs := by
  intro l
  induction l with
  | nil => intro fs _; rfl
  | cons a rest ih =>
    intro fs h
    rw [List.foldl_cons]
    have ha : insertDir fs a = fs := by
      unfold insertDir
      rw [if_pos (h a (List.mem_cons_self a rest))]
    rw [ha]
    exact ih fs (fun p hp => h p (List.mem_cons_of_mem _ hp))

/-- Folding insertDir twice over the same directory list equals
folding it once. -/
theorem foldl_insertDir_idem (l fs : List DirPath) :
    l.foldl insertDir (l.foldl insertDir fs) = l.foldl insertDir fs :=
  foldl_insertDir_noop l _ (fun p hp => mem_foldl_insertDir_of_mem l fs p hp)

/-- A nested fold of insertDir folds collapses into a single fold over
the flattened path list. -/
theorem foldl_insertDir_flatMap {γ : Type} (g : γ → List DirPath) :
    ∀ (l : List γ) (fs : List DirPath),
      l.foldl (fun acc x => (g x).foldl insertDir acc) fs = (l.flatMap g).foldl insertDir fs := by
  intro l
  induction l with
  | nil => intro fs; rfl
  | cons a rest ih =>
    intro fs
    rw [List.foldl_cons, List.flatMap_cons, List.foldl_append]
    exact ih _

/-- The per-host body of create_directories is a fold of insertDir
over the path list of that host. -/
theorem hostStep_eq (acc : List DirPath) (rolesDir : DirPath) (h : Dict) :
    ["files", "tasks", "vars"].foldl (fun a sub => makedirs a (rolesDir ++ [hostName h] ++ [sub]))
      (makedirs acc (rolesDir ++ [hostName h]))
      = (pathsOfHost rolesDir h).foldl insertDir acc := by
  unfold pathsOfHost makedirs
  rw [List.foldl_append]
  exact foldl_insertDir_flatMap _ _ _

/-- The host loop of create_directories is a fold of insertDir over
the concatenated per-host path lists. -/
theorem hostsFold_eq : ∀ (hosts : List Dict) (init : List DirPath) (rolesDir : DirPath),
    hosts.foldl (fun acc h =>
      ["files", "tasks", "vars"].foldl (fun a sub => makedirs a (rolesDir ++ [hostName h] ++ [sub]))
        (makedirs acc (rolesDir ++ [hostName h]))) init
      = (hosts.flatMap (pathsOfHost rolesDir)).foldl insertDir init := by
  intro hosts
  induction hosts with
  | nil => intro init rolesDir; rfl
  | cons h rest ih =>
    intro init rolesDir
    rw [List.foldl_cons, List.flatMap_cons, List.foldl_append, hostStep_eq]
    exact ih _ _

/-- create_directories equals a single fold of insertDir over the full
creation-order path list. -/
theorem create_directories_eq (fs : List DirPath) (baseDir : DirPath) (hosts : List Dict) :
    create_directories fs baseDir hosts = (pathsOf baseDir hosts).foldl insertDir fs := by
  unfold create_directories pathsOf
  rw [List.foldl_append]
  exact hostsFold_eq hosts _ _

/-- Writing only the freshly allocated cell leaves every original cell
unchanged. -/
theorem allocWrite_frame (st : Store) (d d2 : Dict) (i : Nat) (hi : i < st.length) :
    (allocWrite st d d2)[i]? = st[i]? := by
  unfold allocWrite
  rw [List.getElem?_set_ne (by omega), List.getElem?_append_left hi]

/-- allocWrite never shrinks the store. -/
theorem allocWrite_length (st : Store) (d d2 : Dict) :
    st.length ≤ (allocWrite st d d2).length := by
  unfold allocWrite
  rw [List.length_set, List.length_append]
  omega

/-- The heap rendition of the generate_topology host loop never writes
an original cell. -/
theorem filterHostsHeap_frame : ∀ (addrs : List Nat) (st : Store) (i : Nat), i < st.length →
    ((filterHostsHeap st addrs).1)[i]? = st[i]? := by
  intro addrs
  induction addrs with
  | nil => intro st i hi; rfl
  | cons a rest ih =>
    intro st i hi
    show ((filterHostsHeap (copyFilterStep st a).1 rest).1)[i]? = st[i]?
    have h1 : i < ((copyFilterStep st a).1).length :=
      lt_of_lt_of_le hi (allocWrite_length st _ _)
    rw [ih _ i h1]
    exact allocWrite_frame st _ _ i hi

/-- The heap rendition of the save_containers mapping loop never
writes an original cell. -/
theorem numericMappingsHeap_frame : ∀ (addrs : List Nat) (st : Store) (i : Nat), i < st.length →
    ((numericMappingsHeap st addrs).1)[i]? = st[i]? := by
  intro addrs
  induction addrs with
  | nil => intro st i hi; rfl
  | cons a rest ih =>
    intro st i hi
    show ((numericMappingsHeap (coercePortStep st a).1 rest).1)[i]? = st[i]?
    have h1 : i < ((coercePortStep st a).1).length :=
      lt_of_lt_of_le hi (allocWrite_length st _ _)
    rw [ih _ i h1]
    exact allocWrite_frame st _ _ i hi

/-- Claim C1: in the topology document produced by generate_topology,
an emitted host record contains the hidden key exactly when the input
host carries hidden set to true; when hidden is false or absent the
key is dropped, and every other host field is emitted unchanged.  The
hypothesis states the domain of the claim: the hidden field of a host
record is an optional boolean. -/
theorem hidden_key_present_iff_true (name : String)
    (hosts routers networks netMappings routerMappings : List Dict) (groups : List HostGroup)
    (hb : ∀ h ∈ hosts, lookup h "hidden" = none ∨ lookup h "hidden" = some (Val.vBool false)
      ∨ lookup h "hidden" = some (Val.vBool true)) :
    lookup (generateTopologyDoc name hosts routers networks netMappings routerMappings groups) "hosts"
      = some (Val.vList ((hosts.map filterHost).map Val.vDict))
    ∧ ∀ h ∈ hosts,
        (hasKey (filterHost h) "hidden" = true ↔ lookup h "hidden" = some (Val.vBool true))
        ∧ ∀ k, k ≠ "hidden" → lookup (filterHost h) k = lookup h k := by
  refine ⟨rfl, ?_⟩
  intro h hm
  rcases hb h hm with h0 | h0 | h0
  · have hf : filterHost h = eraseKey h "hidden" := by
      rw [filterHost, h0]
      rfl
    constructor
    · rw [hf]
      unfold hasKey
      rw [lookup_eraseKey_self, h0]
      simp
    · intro k hk
      rw [hf, lookup_eraseKey_ne h "hidden" k hk]
  · have hf : filterHost h = eraseKey h "hidden" := by
      rw [filterHost, h0]
      rfl
    constructor
    · rw [hf]
      unfold hasKey
      rw [lookup_eraseKey_self, h0]
      simp
    · intro k hk
      rw [hf, lookup_eraseKey_ne h "hidden" k hk]
  · have hf : filterHost h = h := by
      rw [filterHost, h0]
      rfl
    constructor
    · rw [hf]
      unfold hasKey
      rw [h0]
      simp
    · intro k _
      rw [hf]

/-- Witness for C1 at a concrete host list: a non-hidden field of a
host that carries hidden true comes through unchanged. -/
theorem hidden_key_present_iff_true_witness :
    lookup (filterHost [("hidden", Val.vBool true), ("flavor", Val.vStr "m1.small")]) "flavor"
      = some (Val.vStr "m1.small") := by
  have h := hidden_key_present_iff_true "t"
    [[("hidden", Val.vBool true), ("flavor", Val.vStr "m1.small")]] [] [] [] [] []
    (by
      intro h hh
      rw [List.mem_singleton] at hh
      subst hh
      exact Or.inr (Or.inr rfl))
  exact (h.2 _ (List.mem_singleton.mpr rfl)).2 "flavor" (by decide)

/-- Claim C2 counterexample: for the network record with CIDR 10.0 and
last octet 7, the stored IP is the placeholder rather than the claimed
join of the first three CIDR components with the octet; the code
validates the number of CIDR components (at least three) before
deriving the address, contrary to the claim. -/
theorem net_mapping_short_cidr_cx :
    lookup (mkNetMapping [[("name", Val.vStr "n1"), ("cidr", Val.vStr "10.0")]] "h1" "n1" "7") "ip"
      = some (Val.vStr "?.?.?.7")
    ∧ ("?.?.?.7" : String) ≠ joinDots ((splitDots "10.0").take 3) ++ "." ++ "7" := by
  constructor
  · rfl
  · decide

/-- Claim C2 (amended): for a network mapping whose referenced network
record holds CIDR string c, when c has at least three dot-separated
components the derived IP is the first three components joined with
dots followed by a dot and the caller-supplied octet string, with no
bounds checking on the octet value and no prefix-length validation;
when c has fewer than three components the placeholder IP ending in
the octet is stored instead. -/
theorem net_mapping_ip_derivation (networks : List Dict) (hostN netN octet : String)
    (n : Dict) (c : String)
    (hf : findNetwork networks netN = some n)
    (hc : lookup n "cidr" = some (Val.vStr c)) :
    (3 ≤ (splitDots c).length →
      lookup (mkNetMapping networks hostN netN octet) "ip"
        = some (Val.vStr (joinDots ((splitDots c).take 3) ++ "." ++ octet)))
    ∧ ((splitDots c).length < 3 →
      lookup (mkNetMapping networks hostN netN octet) "ip"
        = some (Val.vStr ("?.?.?." ++ octet))) := by
  constructor
  · intro h3
    simp only [mkNetMapping, hf, hc, if_pos h3]
    exact lookup_setKey_self _ _ _
  · intro h3
    simp only [mkNetMapping, hf, hc, if_neg (by omega : ¬3 ≤ (splitDots c).length)]
    rfl

/-- Witness for C2 (amended) at a concrete network list and octet. -/
theorem net_mapping_ip_derivation_witness :
    lookup (mkNetMapping [[("name", Val.vStr "n1"), ("cidr", Val.vStr "10.0.0.0/24")]] "h1" "n1" "25") "ip"
      = some (Val.vStr "10.0.0.25") := by
  have h := net_mapping_ip_derivation [[("name", Val.vStr "n1"), ("cidr", Val.vStr "10.0.0.0/24")]]
    "h1" "n1" "25" [("name", Val.vStr "n1"), ("cidr", Val.vStr "10.0.0.0/24")] "10.0.0.0/24" rfl rfl
  exact h.1 (by decide)

/-- Claim C3 counterexample: for a network record with the
two-component CIDR 10.0, the router mapping stores the placeholder IP
rather than the claimed join of the first three CIDR components with
the fixed octet 1. -/
theorem router_mapping_short_cidr_cx :
    lookup (mkRouterMapping [[("name", Val.vStr "n1"), ("cidr", Val.vStr "10.0")]] "r1" "n1") "ip"
      = some (Val.vStr "?.?.?.1")
    ∧ ("?.?.?.1" : String) ≠ joinDots ((splitDots "10.0").take 3) ++ ".1" := by
  constructor
  · rfl
  · decide

/-- Claim C3 (amended): for a router mapping whose referenced network
record holds CIDR string c, when c has at least three dot-separated
components the derived IP is the first three components joined with
dots followed by .1, and otherwise the placeholder ?.?.?.1 is stored;
in both cases the last octet is the fixed value 1 irrespective of any
user input. -/
theorem router_mapping_ip_derivation (networks : List Dict) (routerN netN : String)
    (n : Dict) (c : String)
    (hf : findNetwork networks netN = some n)
    (hc : lookup n "cidr" = some (Val.vStr c)) :
    (3 ≤ (splitDots c).length →
      lookup (mkRouterMapping networks routerN netN) "ip"
        = some (Val.vStr (joinDots ((splitDots c).take 3) ++ ".1")))
    ∧ ((splitDots c).length < 3 →
      lookup (mkRouterMapping networks routerN netN) "ip"
        = some (Val.vStr "?.?.?.1"))
    ∧ ∃ p : String, lookup (mkRouterMapping networks routerN netN) "ip"
        = some (Val.vStr (p ++ ".1")) := by
  have hyes : 3 ≤ (splitDots c).length →
      lookup (mkRouterMapping networks routerN netN) "ip"
        = some (Val.vStr (joinDots ((splitDots c).take 3) ++ ".1")) := by
    intro h3
    simp only [mkRouterMapping, hf, hc, if_pos h3]
    exact lookup_setKey_self _ _ _
  have hno : (splitDots c).length < 3 →
      lookup (mkRouterMapping networks routerN netN) "ip"
        = some (Val.vStr "?.?.?.1") := by
    intro h3
    simp only [mkRouterMapping, hf, hc, if_neg (by omega : ¬3 ≤ (splitDots c).length)]
    rfl
  refine ⟨hyes, hno, ?_⟩
  by_cases h3 : 3 ≤ (splitDots c).length
  · exact ⟨joinDots ((splitDots c).take 3), hyes h3⟩
  · exact ⟨"?.?.?", hno (by omega)⟩

/-- Witness for C3 (amended) at a concrete network list. -/
theorem router_mapping_ip_derivation_witness :
    lookup (mkRouterMapping [[("name", Val.vStr "n1"), ("cidr", Val.vStr "10.0.0.0/24")]] "r1" "n1") "ip"
      = some (Val.vStr "10.0.0.1") := by
  have h := router_mapping_ip_derivation [[("name", Val.vStr "n1"), ("cidr", Val.vStr "10.0.0.0/24")]]
    "r1" "n1" [("name", Val.vStr "n1"), ("cidr", Val.vStr "10.0.0.0/24")] "10.0.0.0/24" rfl rfl
  exact h.1 (by decide)

/-- Claim C4: the document produced by generate_topology has exactly
the seven top-level keys name, hosts, routers, networks, net_mappings,
router_mappings, groups in that order; the routers, networks and
mapping lists are passed through unchanged in order, hosts is the
order-preserving image of the hidden filter, and each group record is
re-keyed from name and hosts to name and nodes with the same name and
the same host-name list. -/
theorem topology_doc_shape (name : String)
    (hosts routers networks netMappings routerMappings : List Dict) (groups : List HostGroup) :
    (generateTopologyDoc name hosts routers networks netMappings routerMappings groups).map Prod.fst
      = ["name", "hosts", "routers", "networks", "net_mappings", "router_mappings", "groups"]
    ∧ lookup (generateTopologyDoc name hosts routers networks netMappings routerMappings groups) "name"
        = some (Val.vStr name)
    ∧ lookup (generateTopologyDoc name hosts routers networks netMappings routerMappings groups) "hosts"
        = some (Val.vList ((hosts.map filterHost).map Val.vDict))
    ∧ lookup (generateTopologyDoc name hosts routers networks netMappings routerMappings groups) "routers"
        = some (Val.vList (routers.map Val.vDict))
    ∧ lookup (generateTopologyDoc name hosts routers networks netMappings routerMappings groups) "networks"
        = some (Val.vList (networks.map Val.vDict))
    ∧ lookup (generateTopologyDoc name hosts routers networks netMappings routerMappings groups) "net_mappings"
        = some (Val.vList (netMappings.map Val.vDict))
    ∧ lookup (generateTopologyDoc name hosts routers networks netMappings routerMappings groups) "router_mappings"
        = some (Val.vList (routerMappings.map Val.vDict))
    ∧ lookup (generateTopologyDoc name hosts routers networks netMappings routerMappings groups) "groups"
        = some (Val.vList (groups.map rekeyGroup)) := by
  refine ⟨rfl, rfl, rfl, rfl, rfl, rfl, rfl, ?_⟩
  cases groups <;> rfl

/-- Claim C5: the document written by save_containers has exactly the
keys containers and container_mappings; the containers list is emitted
unchanged, and in each emitted mapping the port field is replaced by
its integer value exactly when the port string parses as a Python
integer, the whole mapping being kept verbatim otherwise and every
non-port field being preserved in all cases. -/
theorem save_containers_port_coercion (containers containerMappings : List Dict) :
    (save_containers_data containers containerMappings).map Prod.fst
      = ["containers", "container_mappings"]
    ∧ lookup (save_containers_data containers containerMappings) "containers"
        = some (Val.vList (containers.map Val.vDict))
    ∧ lookup (save_containers_data containers containerMappings) "container_mappings"
        = some (Val.vList ((containerMappings.map coercePort).map Val.vDict))
    ∧ ∀ m ∈ containerMappings, ∀ s, lookup m "port" = some (Val.vStr s) →
        (∀ k, k ≠ "port" → lookup (coercePort m) k = lookup m k)
        ∧ (∀ j, pyParseInt s = some j → lookup (coercePort m) "port" = some (Val.vInt j))
        ∧ (pyParseInt s = none → coercePort m = m) := by
  refine ⟨rfl, rfl, rfl, ?_⟩
  intro m _ s hs
  refine ⟨?_, ?_, ?_⟩
  · intro k hk
    simp only [coercePort, hs]
    cases hp : pyParseInt s
    · rfl
    · exact lookup_setKey_ne m "port" k _ hk
  · intro j hj
    simp only [coercePort, hs, hj]
    exact lookup_setKey_self m "port" (Val.vInt j)
  · intro hn
    simp only [coercePort, hs, hn]

/-- Witness for C5 at a concrete mapping whose port parses. -/
theorem save_containers_port_coercion_witness :
    lookup (coercePort [("container", Val.vStr "c1"), ("host", Val.vStr "h1"), ("port", Val.vStr "80")]) "port"
      = some (Val.vInt 80) := by
  have h := save_containers_port_coercion []
    [[("container", Val.vStr "c1"), ("host", Val.vStr "h1"), ("port", Val.vStr "80")]]
  exact ((h.2.2.2 _ (List.mem_singleton.mpr rfl) "80" rfl).2.1) 80 (by decide)

/-- Claim C6: generate_topology is deterministic; two runs on
identical input lists produce byte-identical YAML strings. -/
theorem generate_topology_deterministic
    (name1 name2 : String)
    (hosts1 hosts2 routers1 routers2 networks1 networks2 nm1 nm2 rm1 rm2 : List Dict)
    (groups1 groups2 : List HostGroup)
    (he : name1 = name2 ∧ hosts1 = hosts2 ∧ routers1 = routers2 ∧ networks1 = networks2
      ∧ nm1 = nm2 ∧ rm1 = rm2 ∧ groups1 = groups2) :
    generate_topology name1 hosts1 routers1 networks1 nm1 rm1 groups1
      = generate_topology name2 hosts2 routers2 networks2 nm2 rm2 groups2 := by
  obtain ⟨e1, e2, e3, e4, e5, e6, e7⟩ := he
  subst e1
  subst e2
  subst e3
  subst e4
  subst e5
  subst e6
  subst e7
  rfl

/-- Witness for C6 at concrete equal inputs. -/
theorem generate_topology_deterministic_witness :
    generate_topology "t" [[("name", Val.vStr "a")]] [] [] [] [] []
      = generate_topology "t" [[("name", Val.vStr "a")]] [] [] [] [] [] :=
  generate_topology_deterministic "t" "t"
    [[("name", Val.vStr "a")]] [[("name", Val.vStr "a")]] [] [] [] [] [] [] [] [] [] []
    ⟨rfl, rfl, rfl, rfl, rfl, rfl, rfl⟩

/-- Claim C7: directory scaffolding is idempotent; running
create_directories a second time on the state it produced changes
nothing, so no directory is duplicated and, since makedirs is total
with exist_ok semantics, nothing fails. -/
theorem create_directories_idempotent (fs : List DirPath) (baseDir : DirPath) (hosts : List Dict) :
    create_directories (create_directories fs baseDir hosts) baseDir hosts
      = create_directories fs baseDir hosts := by
  simp only [create_directories_eq]
  exact foldl_insertDir_idem _ _

/-- Claim C8: every container record returned by add_container holds
the key name plus exactly one of dockerfile or image, never both:
dockerfile is present exactly when the stripped dockerfile entry is
nonempty, and image is present otherwise. -/
theorem container_record_fields (nameRaw imageRaw dockerRaw : String) (item : Dict)
    (h : add_container nameRaw imageRaw dockerRaw = some item) :
    hasKey item "name" = true
    ∧ (hasKey item "dockerfile" = true ↔ pyStrip dockerRaw ≠ "")
    ∧ (hasKey item "image" = true ↔ pyStrip dockerRaw = "")
    ∧ ¬(hasKey item "dockerfile" = true ∧ hasKey item "image" = true) := by
  unfold add_container at h
  by_cases hn : pyStrip nameRaw = ""
  · rw [if_pos hn] at h
    cases h
  · rw [if_neg hn] at h
    by_cases hd : pyStrip dockerRaw = ""
    · rw [if_pos hd] at h
      injection h with h
      subst h
      refine ⟨rfl, ?_, ?_, ?_⟩
      · simp [hasKey, lookup, hd]
      · simp [hasKey, lookup, hd]
      · simp [hasKey, lookup]
    · rw [if_neg hd] at h
      injection h with h
      subst h
      refine ⟨rfl, ?_, ?_, ?_⟩
      · simp [hasKey, lookup, hd]
      · simp [hasKey, lookup, hd]
      · simp [hasKey, lookup]

/-- Witness for C8 at a concrete container without a dockerfile. -/
theorem container_record_fields_witness :
    hasKey [("name", Val.vStr "web"), ("image", Val.vStr "debian")] "image" = true :=
  ((container_record_fields "web" "debian" ""
    [("name", Val.vStr "web"), ("image", Val.vStr "debian")] rfl).2.2.1).mpr rfl

/-- Claim C9 counterexample: with a host and a network present but the
last octet entry empty, add_network_mapping returns silently: no
dialog is shown, no error is raised or propagated, and no mapping is
stored, contradicting the claim that every missing required field is
surfaced as a blocking modal dialog. -/
theorem mapping_handler_silent_cx :
    add_network_mapping_run [[("name", Val.vStr "h1")]]
      [[("name", Val.vStr "n1"), ("cidr", Val.vStr "10.0.0.0/24")]] [] "h1" "n1" ""
      = ([], Effect.noEffect) := rfl

/-- Claim C9 (amended): in add_network_mapping, the failure of the
guard on empty host or network lists is caught locally and surfaced as
a blocking modal error dialog without being propagated; a missing
required field, however, is silently ignored with no dialog, no
propagation and no stored mapping; and an invalid or unresolvable
network reference is not treated as an error at all: when every field
is present the mapping is appended (with a placeholder IP if the
network does not resolve) and no dialog is shown. -/
theorem mapping_handler_effects (hosts networks netMappings : List Dict)
    (hostRaw networkRaw octetRaw : String) :
    ((hosts.isEmpty || networks.isEmpty) = true →
      add_network_mapping_run hosts networks netMappings hostRaw networkRaw octetRaw
        = (netMappings, Effect.errorDialog "Error" "Add hosts/networks first!"))
    ∧ ((hosts.isEmpty || networks.isEmpty) = false →
        (pyStrip hostRaw = "" ∨ pyStrip networkRaw = "" ∨ pyStrip octetRaw = "") →
        add_network_mapping_run hosts networks netMappings hostRaw networkRaw octetRaw
          = (netMappings, Effect.noEffect))
    ∧ ((hosts.isEmpty || networks.isEmpty) = false →
        pyStrip hostRaw ≠ "" → pyStrip networkRaw ≠ "" → pyStrip octetRaw ≠ "" →
        add_network_mapping_run hosts networks netMappings hostRaw networkRaw octetRaw
          = (netMappings ++ [mkNetMapping networks (pyStrip hostRaw) (pyStrip networkRaw) (pyStrip octetRaw)],
             Effect.noEffect)) := by
  refine ⟨?_, ?_, ?_⟩
  · intro hcase
    unfold add_network_mapping_run
    rw [if_pos hcase]
  · intro hcase hfield
    unfold add_network_mapping_run
    rw [if_neg (by simp [hcase]), if_pos hfield]
  · intro hcase h1 h2 h3
    unfold add_network_mapping_run
    rw [if_neg (by simp [hcase]), if_neg (by simp [h1, h2, h3])]

/-- Witness for C9 (amended): the empty-lists guard produces the error
dialog. -/
theorem mapping_handler_effects_witness :
    add_network_mapping_run [] [] [] "h1" "n1" "7"
      = ([], Effect.errorDialog "Error" "Add hosts/networks first!") :=
  (mapping_handler_effects [] [] [] "h1" "n1" "7").1 rfl

/-- Claim C10: the host loop of generate_topology and the mapping loop
of save_containers copy each record before editing it, so no cell of
the original store is ever written: after either loop, every address
that was valid before the call still holds its original dict. -/
theorem export_does_not_mutate_inputs (st : Store) (hostAddrs mapAddrs : List Nat) (i : Nat)
    (hi : i < st.length) :
    ((filterHostsHeap st hostAddrs).1)[i]? = st[i]?
    ∧ ((numericMappingsHeap st mapAddrs).1)[i]? = st[i]? :=
  ⟨filterHostsHeap_frame hostAddrs st i hi, numericMappingsHeap_frame mapAddrs st i hi⟩

/-- Witness for C10 at a concrete one-cell store whose host record has
hidden false and whose mapping record has a parseable port. -/
theorem export_does_not_mutate_inputs_witness :
    ((filterHostsHeap [[("name", Val.vStr "a"), ("hidden", Val.vBool false), ("port", Val.vStr "80")]] [0]).1)[0]?
      = some [("name", Val.vStr "a"), ("hidden", Val.vBool false), ("port", Val.vStr "80")]
    ∧ ((numericMappingsHeap [[("name", Val.vStr "a"), ("hidden", Val.vBool false), ("port", Val.vStr "80")]] [0]).1)[0]?
      = some [("name", Val.vStr "a"), ("hidden", Val.vBool false), ("port", Val.vStr "80")] :=
  export_does_not_mutate_inputs
    [[("name", Val.vStr "a"), ("hidden", Val.vBool false), ("port", Val.vStr "80")]]
    [0] [0] 0 (by decide)
